import Mathlib

/-!
Shallow embedding of the ReguLex three-stage analysis pipeline
(retrieval & relevance scoring, interpretation, formatting/traceability)
together with proofs about its conflict scoring, misuse and bias
detection, outcome classification and traceability enforcement.

Modelling conventions:
* JavaScript strings are `String`; `toLowerCase` is `strLower` (character-wise
  `Char.toLower`), `includes` is `containsStr`, `startsWith` is `startsWithStr`.
* `Date` values are integers of milliseconds since the epoch; an absent or
  unparseable `effective_date` is `none`.
* A JavaScript `Set` built by successive insertion is `jsSet`: the list of
  first occurrences in insertion order.
* `Array.prototype.sort` with a numeric comparator is `sortByB`, a stable
  insertion sort (ECMAScript sort is required to be stable).
-/

/-- Character-wise lower casing, the model of JavaScript `toLowerCase`. -/
def strLower (s : String) : String := ⟨s.data.map Char.toLower⟩

/-- Boolean test that `p` is a prefix of `l`. -/
def prefixOfB : List Char → List Char → Bool
  | [], _ => true
  | _ :: _, [] => false
  | a :: p, b :: l => a == b && prefixOfB p l

/-- Boolean test that `p` occurs contiguously inside `l`. -/
def infixOfB (p l : List Char) : Bool :=
  match l with
  | [] => p.isEmpty
  | _ :: t => prefixOfB p l || infixOfB p t

/-- Model of JavaScript `s.includes(pat)`. -/
def containsStr (s pat : String) : Bool := infixOfB pat.data s.data

/-- Model of JavaScript `s.startsWith(pat)`. -/
def startsWithStr (s pat : String) : Bool := prefixOfB pat.data s.data

/-- Insert an element at the end unless already present: one step of filling a
JavaScript `Set` (or of `Set.add`) in insertion order. -/
def insertUnique {α : Type} [DecidableEq α] (l : List α) (a : α) : List α :=
  if a ∈ l then l else l ++ [a]

/-- The model of `new Set(l)` (as an ordered list of the distinct elements,
in first-occurrence order; its `length` is the set's `size`). -/
def jsSet {α : Type} [DecidableEq α] (l : List α) : List α :=
  l.foldl insertUnique []

/-- Stable insertion step: `a` goes before the first element it must strictly
precede, hence after all earlier elements that compare equal. -/
def insertByB {α : Type} (r : α → α → Bool) (a : α) : List α → List α
  | [] => [a]
  | b :: l => if r a b then a :: b :: l else b :: insertByB r a l

/-- Stable sort: elements are inserted in original order, so ties keep their
original relative order, as ECMAScript `Array.prototype.sort` guarantees. -/
def sortByB {α : Type} (r : α → α → Bool) (l : List α) : List α :=
  l.foldl (fun acc a => insertByB r a acc) []

/-! ## Data model

Mirrors of the TypeScript interfaces `LegalDocument`, `Node1Output`
(its citation element type, here `Citation`, with the optional
`jurisdiction`/`category` the boosted retrieval variant attaches),
`Node2Output` and `FormattedOutput`. -/

/-- The three terminal values of `Node2Output['FinalOutcome']`. -/
inductive Outcome where
  | Eligible
  | NotEligible
  | RequiresMoreData
  deriving DecidableEq

/-- The two values of `Node2Output['BiasFlag']`. -/
inductive BiasFlagV where
  | YES
  | NO
  deriving DecidableEq

/-- A citation as placed into `Node1Output.TopCitations`; `jurisdiction` and
`category` are `none` for the keyword retrieval variant and `some` for the
similarity/boosted variant. -/
structure Citation where
  id : String
  citation_text : String
  section_id : String
  title : String
  jurisdiction : Option String := none
  category : Option String := none
  deriving DecidableEq

/-- A row of the `legal_documents` store (fields the pipeline reads). -/
structure LegalDocument where
  id : String
  document_type : String
  title : String
  section_id : String
  citation_text : String
  category : String
  jurisdiction : String
  effective_date : Option Int
  deriving DecidableEq

structure Node1Output where
  TopCitations : List Citation
  ConflictScore : Nat
  deriving DecidableEq

structure Node2Output where
  FinalOutcome : Outcome
  RationaleSummary : String
  BiasFlag : BiasFlagV
  deriving DecidableEq

structure FormattedOutput where
  displayText : String
  outcome : Outcome
  citations : List Citation
  traceabilityCompliant : Bool
  jurisdictionsReferenced : List String
  deriving DecidableEq

/-! ## Node 1: retrieval and relevance scoring (keyword variant)

Embeds `executeNode1` / `calculateRelevanceScore` / `calculateConflictScore`
of `node1-retrieval.ts` (keyword variant). The external document store is a
`List LegalDocument` parameter (the snapshot the store returned); the store
failure path is outside the pipeline and not modelled. -/

/-- Split a character list at each whitespace character. -/
def splitWsAux : List Char → List Char → List (List Char)
  | [], cur => [cur.reverse]
  | c :: cs, cur =>
    if c.isWhitespace then cur.reverse :: splitWsAux cs []
    else splitWsAux cs (c :: cur)

/-- Query terms: `query.split(/\s+/).filter(term => term.length > 3)`; the
split is at each whitespace character. A `/\s+/` run produces empty pieces
here, which the length filter removes, so the filtered result agrees. -/
def queryTerms (query : String) : List String :=
  ((splitWsAux query.data []).map (fun w => String.mk w)).filter (fun t => 3 < t.length)

/-- Non-overlapping left-to-right occurrence count: the model of
`(text.match(new RegExp(term, 'g')) || []).length` for a term free of
regular-expression metacharacters (matching is then literal). -/
def countOccur (term : List Char) : List Char → Nat
  | [] => 0
  | c :: rest =>
    if prefixOfB term (c :: rest) then 1 + countOccur term (rest.drop (term.length - 1))
    else countOccur term rest
termination_by l => l.length
decreasing_by
  · simp only [List.length_cons, List.length_drop]
    omega
  · simp only [List.length_cons]
    omega

/-- Shared inline recency test of both relevance scorers: `effective_date`
present and `Math.floor((now - effectiveDate) / 86400000) < 365`
(both instants in milliseconds). -/
def recencyBonusApplies (doc : LegalDocument) (now : Int) : Bool :=
  match doc.effective_date with
  | none => false
  | some e => decide ((now - e).fdiv 86400000 < 365)

/-- Keyword relevance scorer (`calculateRelevanceScore`): 10 per term
occurrence in `title + ' ' + citation_text + ' ' + category` (lower-cased),
a categorical prior, and +5 when the effective date is within 365 days. -/
def calculateRelevanceScore (query : String) (doc : LegalDocument) (now : Int) : Nat :=
  let searchableText := strLower (doc.title ++ " " ++ doc.citation_text ++ " " ++ doc.category)
  let base := (queryTerms query).foldl
    (fun score term => score + countOccur term.data searchableText.data * 10) 0
  let s1 := base + (if doc.category = "Eligibility" then 20 else 0)
  let s2 := s1 + (if doc.category = "Exceptions" then 15 else 0)
  let s3 := s2 + (if doc.category = "Definitions" then 10 else 0)
  s3 + (if recencyBonusApplies doc now then 5 else 0)

/-- Sufficient condition under which `new RegExp(term)` throws a
`SyntaxError` in the JavaScript runtime: a pattern containing an opening
parenthesis but no closing one and no backslash escape is an unterminated
group. Only this (certain) failure condition of the host regex compiler is
modelled. -/
def regexCompileFails (term : String) : Bool :=
  term.data.contains '(' && !term.data.contains ')' && !term.data.contains '\\'

/-- Error-aware model of `calculateRelevanceScore`: term counting goes
through `new RegExp(term, 'g')`, so a term whose pattern does not compile
aborts the scorer (and with it the whole invocation) with an exception. -/
def calculateRelevanceScoreE (query : String) (doc : LegalDocument) (now : Int) :
    Except String Nat := do
  let searchableText := strLower (doc.title ++ " " ++ doc.citation_text ++ " " ++ doc.category)
  let base ← (queryTerms query).foldlM
    (fun score term =>
      if regexCompileFails term then
        Except.error ("Invalid regular expression: " ++ term)
      else
        Except.ok (score + countOccur term.data searchableText.data * 10)) 0
  let s1 := base + (if doc.category = "Eligibility" then 20 else 0)
  let s2 := s1 + (if doc.category = "Exceptions" then 15 else 0)
  let s3 := s2 + (if doc.category = "Definitions" then 10 else 0)
  pure (s3 + (if recencyBonusApplies doc now then 5 else 0))

/-- The conflict-term lexicon of every conflict-score variant. -/
def CONFLICT_TERMS : List String :=
  ["except", "unless", "however", "notwithstanding", "provided that", "subject to"]

/-- The two nested `forEach` loops counting citation-text/term hits:
+1 for each pair of a citation text and a conflict term it contains. -/
def conflictTermHits (texts : List String) : Nat :=
  texts.foldl
    (fun acc text =>
      CONFLICT_TERMS.foldl (fun a term => if containsStr text term then a + 1 else a) acc) 0

/-- Final normalisation shared by all conflict-score variants:
`Math.min(10, Math.max(1, Math.floor(conflictIndicators / 2) + 1))`. -/
def clampScore (conflictIndicators : Nat) : Nat :=
  min 10 (max 1 (conflictIndicators / 2 + 1))

/-- Keyword variant `calculateConflictScore` (categories and jurisdictions
looked up in the candidate set by citation id; the jurisdiction `Set` is
built over `string | undefined` values, `undefined` included). -/
def calculateConflictScoreBasic (topCitations : List Citation)
    (allDocuments : List LegalDocument) : Nat :=
  if topCitations.length < 2 then 1 else
    let categories := topCitations.map
      (fun c => (allDocuments.find? (fun d => d.id = c.id)).map (fun d => d.category))
    let i1 := if categories.contains (some "Eligibility")
                 && categories.contains (some "Exceptions") then 3 else 0
    let texts := topCitations.map (fun c => strLower c.citation_text)
    let i2 := i1 + conflictTermHits texts
    let jurisdictions := topCitations.map
      (fun c => (allDocuments.find? (fun d => d.id = c.id)).map (fun d => d.jurisdiction))
    let i3 := i2 + (if 1 < (jsSet jurisdictions).length then 2 else 0)
    clampScore i3

/-- Keyword-variant `executeNode1` on an already-retrieved snapshot: score,
sort descending (stable), keep the top five, compute the conflict score.
An empty snapshot short-circuits to `{TopCitations: [], ConflictScore: 0}`. -/
def executeNode1 (userQuery : String) (documents : List LegalDocument) (now : Int) :
    Node1Output :=
  if documents.isEmpty then ⟨[], 0⟩
  else
    let scored := documents.map
      (fun doc => (doc, calculateRelevanceScore (strLower userQuery) doc now))
    let sorted := sortByB (fun a b => decide (b.2 < a.2)) scored
    let topCitations := (sorted.take 5).map (fun p =>
      { id := p.1.id, citation_text := p.1.citation_text,
        section_id := p.1.section_id, title := p.1.title : Citation })
    ⟨topCitations, calculateConflictScoreBasic topCitations documents⟩

/-! ## Conflict scoring, metadata-aware variants

Two further `calculateConflictScore` versions coexist in the repository:
the similarity-retrieval one (citations may carry `jurisdiction`/`category`
directly, and a per-category cross-jurisdiction +5 signal is added) and the
G7-enhanced one (definitional-divergence, G7-membership, data-protection
stringency and EU/non-EU signals). -/

/-- JavaScript `a || b` on `string | undefined` values: an empty string is
falsy and falls through to `b`. -/
def tsOr (a b : Option String) : Option String :=
  match a with
  | some s => if s = "" then b else some s
  | none => b

/-- JavaScript truthiness filter for `string | undefined`: drops `undefined`
and the empty string. -/
def truthyOpt (a : Option String) : Option String :=
  match a with
  | some s => if s = "" then none else some s
  | none => none

/-- Category and jurisdiction of a citation as the metadata-aware analyzer
reads them: `citation.category || doc?.category` and
`citation.jurisdiction || doc?.jurisdiction` with the candidate document
looked up by id. -/
def citationMetaOf (allDocuments : List LegalDocument) (c : Citation) :
    Option String × Option String :=
  let doc := allDocuments.find? (fun d => d.id = c.id)
  (tsOr c.category (doc.map (fun d => d.category)),
   tsOr c.jurisdiction (doc.map (fun d => d.jurisdiction)))

/-- Entries of `categoryJurisdictionMap`: the `(category, jurisdiction)`
pairs of citations on which both values are truthy. -/
def catJurPairs (citationData : List (Option String × Option String)) :
    List (String × String) :=
  citationData.filterMap (fun cj =>
    match truthyOpt cj.1, truthyOpt cj.2 with
    | some cat, some j => some (cat, j)
    | _, _ => none)

/-- Metadata-aware `calculateConflictScore` (similarity-retrieval file):
category/term signals, +5 per category represented by two or more distinct
jurisdictions, +2 when more than one distinct truthy jurisdiction appears. -/
def calculateConflictScoreMeta (topCitations : List Citation)
    (allDocuments : List LegalDocument) : Nat :=
  if topCitations.length < 2 then 1 else
    let citationData := topCitations.map (citationMetaOf allDocuments)
    let categories := citationData.map Prod.fst
    let i1 := if categories.contains (some "Eligibility")
                 && categories.contains (some "Exceptions") then 3 else 0
    let texts := topCitations.map (fun c => strLower c.citation_text)
    let i2 := i1 + conflictTermHits texts
    let pairs := catJurPairs citationData
    let i3 := (jsSet (pairs.map Prod.fst)).foldl
      (fun acc cat =>
        if 2 ≤ (jsSet ((pairs.filter (fun p => decide (p.1 = cat))).map Prod.snd)).length
        then acc + 5 else acc) i2
    let uniqueJurisdictions := jsSet ((citationData.map Prod.snd).filterMap truthyOpt)
    let i4 := i3 + (if 1 < uniqueJurisdictions.length then 2 else 0)
    clampScore i4

/-- The G7 member jurisdictions (fixed list of the G7-enhanced analyzer). -/
def G7_JURISDICTIONS : List String :=
  ["Canada", "France", "Germany", "Italy", "Japan", "United Kingdom",
   "United States", "European Union"]

/-- Data-protection stringency ranking with the analyzer's `|| 5` fallback
for jurisdictions outside the table. -/
def DATA_PROTECTION_STRINGENCY (j : String) : Nat :=
  if j = "European Union" then 10
  else if j = "Germany" then 10
  else if j = "France" then 9
  else if j = "Italy" then 9
  else if j = "Japan" then 7
  else if j = "United Kingdom" then 8
  else if j = "Canada" then 7
  else if j = "United States" then 5
  else 5

def listMaxN : List Nat → Nat
  | [] => 0
  | a :: l => l.foldl max a

def listMinN : List Nat → Nat
  | [] => 0
  | a :: l => l.foldl min a

/-- Spread `Math.max(...scores) - Math.min(...scores)` of the stringency
ranks of a jurisdiction list (0 on fewer than two entries). -/
def stringencySpread (g7Jurisdictions : List String) : Nat :=
  listMaxN (g7Jurisdictions.map DATA_PROTECTION_STRINGENCY)
    - listMinN (g7Jurisdictions.map DATA_PROTECTION_STRINGENCY)

/-- The EU-aligned jurisdictions of the EU/non-EU conflict check. -/
def EU_ALIGNED : List String := ["European Union", "Germany", "France", "Italy"]

/-- The non-EU jurisdictions of the EU/non-EU conflict check. -/
def NON_EU_G7 : List String := ["United States", "Japan", "United Kingdom", "Canada"]

/-- G7-enhanced `calculateConflictScore` (categories and jurisdictions
looked up by id in the candidate set; `undefined` lookups dropped from the
jurisdiction list; the G7/stringency/EU signals nest inside the
multi-jurisdiction branch as in the source). -/
def calculateConflictScoreG7 (topCitations : List Citation)
    (allDocuments : List LegalDocument) : Nat :=
  if topCitations.length < 2 then 1 else
    let categories := topCitations.map
      (fun c => (allDocuments.find? (fun d => d.id = c.id)).map (fun d => d.category))
    let hasEligibility := categories.contains (some "Eligibility")
    let hasExceptions := categories.contains (some "Exceptions")
    let hasDefinitions := categories.contains (some "Definitions")
    let i1 := if hasEligibility && hasExceptions then 3 else 0
    let i2 := i1 +
      (if hasDefinitions
          && decide (1 < categories.countP (fun cat => decide (cat = some "Definitions")))
       then 2 else 0)
    let texts := topCitations.map (fun c => strLower c.citation_text)
    let i3 := i2 + conflictTermHits texts
    let jurisdictions := topCitations.filterMap
      (fun c => (allDocuments.find? (fun d => d.id = c.id)).map (fun d => d.jurisdiction))
    let uniqueJurisdictions := jsSet jurisdictions
    let g7Jurisdictions := uniqueJurisdictions.filter (fun j => G7_JURISDICTIONS.contains j)
    let i4 :=
      if 1 < uniqueJurisdictions.length then
        let a1 := i3 + 2
        let a2 :=
          if 1 < g7Jurisdictions.length then
            a1 + 2 + (if 3 ≤ stringencySpread g7Jurisdictions then 2 else 0)
          else a1
        let hasEU := g7Jurisdictions.any (fun j => EU_ALIGNED.contains j)
        let hasNonEU := g7Jurisdictions.any (fun j => NON_EU_G7.contains j)
        if hasEU && hasNonEU then a2 + 1 else a2
      else i3
    clampScore i4

/-- Conflict-indicator sum asserted by the claim for the conflict analyzer:
all signals of both tiers combined (category clash, term pairs, per-category
cross-jurisdiction +5, multi-jurisdiction +2, G7 +2, stringency spread +2,
EU/non-EU +1), with citation metadata read as the metadata-aware analyzer
reads it. Stated from the specification's words, for comparison against the
analyzers actually present in the code. -/
def claimedConflictScore (topCitations : List Citation)
    (allDocuments : List LegalDocument) : Nat :=
  let citationData := topCitations.map (citationMetaOf allDocuments)
  let texts := topCitations.map (fun c => strLower c.citation_text)
  let pairs := catJurPairs citationData
  let uniqueJurisdictions := jsSet ((citationData.map Prod.snd).filterMap truthyOpt)
  let g7 := uniqueJurisdictions.filter (fun j => G7_JURISDICTIONS.contains j)
  let ind :=
    (if (citationData.map Prod.fst).contains (some "Eligibility")
        && (citationData.map Prod.fst).contains (some "Exceptions") then 3 else 0)
    + (texts.map (fun text => CONFLICT_TERMS.countP (fun term => containsStr text term))).sum
    + 5 * (jsSet (pairs.map Prod.fst)).countP
        (fun cat =>
          decide (2 ≤ (jsSet ((pairs.filter (fun p => decide (p.1 = cat))).map Prod.snd)).length))
    + (if 1 < uniqueJurisdictions.length then 2 else 0)
    + (if 1 < g7.length then 2 else 0)
    + (if 3 ≤ stringencySpread g7 then 2 else 0)
    + (if g7.any (fun j => EU_ALIGNED.contains j)
          && g7.any (fun j => NON_EU_G7.contains j) then 1 else 0)
  clampScore ind

/-- Indicator sum the metadata-aware analyzer actually accumulates, written
as one flat arithmetic sum over independent signals. -/
def metaIndicatorSum (topCitations : List Citation)
    (allDocuments : List LegalDocument) : Nat :=
  let citationData := topCitations.map (citationMetaOf allDocuments)
  let texts := topCitations.map (fun c => strLower c.citation_text)
  let pairs := catJurPairs citationData
  let uniqueJurisdictions := jsSet ((citationData.map Prod.snd).filterMap truthyOpt)
  (if (citationData.map Prod.fst).contains (some "Eligibility")
      && (citationData.map Prod.fst).contains (some "Exceptions") then 3 else 0)
  + (texts.map (fun text => CONFLICT_TERMS.countP (fun term => containsStr text term))).sum
  + 5 * (jsSet (pairs.map Prod.fst)).countP
      (fun cat =>
        decide (2 ≤ (jsSet ((pairs.filter (fun p => decide (p.1 = cat))).map Prod.snd)).length))
  + (if 1 < uniqueJurisdictions.length then 2 else 0)

/-- Indicator sum the G7-enhanced analyzer actually accumulates, written as
one flat arithmetic sum (the source's nesting of the G7, stringency and
EU/non-EU signals inside the multi-jurisdiction branch is redundant, which
`calculateConflictScoreG7_eq` proves). -/
def g7IndicatorSum (topCitations : List Citation)
    (allDocuments : List LegalDocument) : Nat :=
  let categories := topCitations.map
    (fun c => (allDocuments.find? (fun d => d.id = c.id)).map (fun d => d.category))
  let texts := topCitations.map (fun c => strLower c.citation_text)
  let uniqueJurisdictions := jsSet (topCitations.filterMap
    (fun c => (allDocuments.find? (fun d => d.id = c.id)).map (fun d => d.jurisdiction)))
  let g7 := uniqueJurisdictions.filter (fun j => G7_JURISDICTIONS.contains j)
  (if categories.contains (some "Eligibility")
      && categories.contains (some "Exceptions") then 3 else 0)
  + (if categories.contains (some "Definitions")
        && decide (1 < categories.countP (fun cat => decide (cat = some "Definitions")))
     then 2 else 0)
  + (texts.map (fun text => CONFLICT_TERMS.countP (fun term => containsStr text term))).sum
  + (if 1 < uniqueJurisdictions.length then 2 else 0)
  + (if 1 < g7.length then 2 else 0)
  + (if 3 ≤ stringencySpread g7 then 2 else 0)
  + (if g7.any (fun j => EU_ALIGNED.contains j)
        && g7.any (fun j => NON_EU_G7.contains j) then 1 else 0)

/-! ## Node 2: interpretation (misuse detection, bias detection, outcome) -/

/-- The `SAFETY` entry of `HIROSHIMA_PRINCIPLES`. -/
def HIROSHIMA_SAFETY : String :=
  "AI must not facilitate misuse, harm, or circumvention of safety measures"

/-- The `TRANSPARENCY` entry of `HIROSHIMA_PRINCIPLES`. -/
def HIROSHIMA_TRANSPARENCY : String :=
  "All determinations must be explainable with clear legal basis"

/-- The fixed misuse-phrase list `MISUSE_PATTERNS`. -/
def MISUSE_PATTERNS : List String :=
  ["circumvent", "bypass", "avoid restriction", "unauthorized", "illegal",
   "exploit", "loophole", "get around", "work around", "evade",
   "minimum steps to", "how to violate"]

/-- The `for`-loop of `detectMisuseIntent`: the first listed pattern the
lower-cased query contains, if any. -/
def findMisusePattern (queryLower : String) : List String → Option String
  | [] => none
  | p :: ps => if containsStr queryLower p then some p else findMisusePattern queryLower ps

/-- Result record of `detectMisuseIntent`. -/
structure MisuseCheck where
  isMisuse : Bool
  reason : String
  deriving DecidableEq

/-- Misuse-intent detector: first a pattern scan of the lower-cased query,
then the compound safety-context/circumvention-intent heuristic. -/
def detectMisuseIntent (query : String) : MisuseCheck :=
  let queryLower := strLower query
  match findMisusePattern queryLower MISUSE_PATTERNS with
  | some pattern =>
    ⟨true, "Query contains potential misuse language (\"" ++ pattern
      ++ "\"). Per G7 Safety Principle, interpretation for circumvention is not provided."⟩
  | none =>
    let hasSafetyContext := containsStr queryLower "safety"
      || containsStr queryLower "restriction" || containsStr queryLower "prohibited"
    let hasCircumventionIntent := containsStr queryLower "suggest"
      && (containsStr queryLower "step" || containsStr queryLower "way")
    if hasSafetyContext && hasCircumventionIntent then
      ⟨true, "Query appears to seek guidance on circumventing safety restrictions. Per G7 Safety Principle, such interpretation is declined."⟩
    else ⟨false, ""⟩

/-- The protected-characteristic lexicon `biasTerms`. -/
def biasTerms : List String :=
  ["race", "racial", "ethnicity", "ethnic", "color", "colour",
   "gender", "sex", "male", "female", "man", "woman",
   "religion", "religious", "belief", "faith",
   "national origin", "nationality", "citizenship",
   "age", "disability", "disabled",
   "sexual orientation", "marital status",
   "pregnancy", "pregnant",
   "veteran status", "genetic information", "family status",
   "socioeconomic", "class", "caste"]

/-- The non-discrimination lexicon `legalContextPhrases`. -/
def legalContextPhrases : List String :=
  ["without regard to", "regardless of", "prohibited", "discrimination",
   "protected class", "non-discriminatory", "equal treatment",
   "anti-discrimination", "civil rights", "human rights", "fundamental rights"]

/-- The legitimate-question test of `detectBias` on the lower-cased query. -/
def isLegitimateQuestionB (queryLower : String) : Bool :=
  containsStr queryLower "am i eligible"
    || containsStr queryLower "what are the requirements"
    || containsStr queryLower "how does"
    || containsStr queryLower "what is the"

/-- The `for`-loop of `detectBias` over the protected-term lexicon, with its
early exit on the first term that triggers the flag. -/
def scanBiasTerms (allTextLower : String) (hasLegalContext : Bool)
    (queryLower : String) : List String → BiasFlagV
  | [] => BiasFlagV.NO
  | term :: rest =>
    if containsStr allTextLower term then
      if !hasLegalContext then
        if !isLegitimateQuestionB queryLower
            || containsStr allTextLower "more likely"
            || containsStr allTextLower "less likely" then BiasFlagV.YES
        else scanBiasTerms allTextLower hasLegalContext queryLower rest
      else scanBiasTerms allTextLower hasLegalContext queryLower rest
    else scanBiasTerms allTextLower hasLegalContext queryLower rest

/-- Bias detector: joins citation texts and the query, lower-cases, checks
the non-discrimination lexicon, then scans the protected-term lexicon. -/
def detectBias (citationTexts : List String) (userQuery : String) : BiasFlagV :=
  let allText := String.intercalate " " citationTexts ++ " " ++ userQuery
  let allTextLower := strLower allText
  let hasLegalContext := legalContextPhrases.any (fun phrase => containsStr allTextLower phrase)
  scanBiasTerms allTextLower hasLegalContext (strLower userQuery) biasTerms

/-- The tally loop of `performStepByStepAnalysis`: per citation text, one
eligibility / ineligibility / uncertainty indicator each at most. -/
def tallyIndicators (citationTexts : List String) : Nat × Nat × Nat :=
  citationTexts.foldl
    (fun t text =>
      let e := if containsStr text "eligible" || containsStr text "entitled"
                  || containsStr text "qualifies" then t.1 + 1 else t.1
      let i := if containsStr text "not eligible" || containsStr text "ineligible"
                  || containsStr text "excluded" || containsStr text "prohibited"
                  || containsStr text "disqualified" then t.2.1 + 1 else t.2.1
      let u := if containsStr text "may" || containsStr text "discretion"
                  || containsStr text "case-by-case" || containsStr text "subject to review"
                  || containsStr text "upon approval" then t.2.2 + 1 else t.2.2
      (e, i, u)) (0, 0, 0)

/-- Outcome classifier `performStepByStepAnalysis`: tallies indicators, adds
the exception-marker and conflict-score uncertainty bumps, then decides by
the first matching branch, generating the branch's rationale. -/
def performStepByStepAnalysis (citations : List Citation) (conflictScore : Nat)
    (userQuery : String) : Node2Output :=
  let queryLower := strLower userQuery
  let citationTexts := citations.map (fun c => strLower c.citation_text)
  let biasFlag := detectBias citationTexts queryLower
  let tallies := tallyIndicators citationTexts
  let eligibilityIndicators := tallies.1
  let ineligibilityIndicators := tallies.2.1
  let hasExceptions := citations.any (fun c =>
    let text := strLower c.citation_text
    containsStr text "except" || containsStr text "unless" || containsStr text "provided that")
  let u1 := tallies.2.2 + (if hasExceptions then 2 else 0)
  let uncertaintyIndicators := u1 + (if 7 ≤ conflictScore then 3 else 0)
  if 2 < uncertaintyIndicators || 8 ≤ conflictScore then
    ⟨Outcome.RequiresMoreData,
     "The analysis identified " ++ toString citations.length
       ++ " relevant legal sections with a conflict score of " ++ toString conflictScore
       ++ "/10. The cited provisions contain conditional language, exceptions, or conflicting requirements that prevent a definitive determination. Manual review by a compliance officer is recommended to assess the specific circumstances.",
     biasFlag⟩
  else if eligibilityIndicators < ineligibilityIndicators then
    ⟨Outcome.NotEligible,
     "Based on " ++ toString citations.length
       ++ " legal citations, the analysis indicates ineligibility. The relevant provisions contain explicit exclusions or prohibitions that apply to the query circumstances. Review sections "
       ++ String.intercalate ", " ((citations.take 2).map (fun c => c.section_id))
       ++ " for full details.",
     biasFlag⟩
  else if 0 < eligibilityIndicators then
    ⟨Outcome.Eligible,
     "The analysis of " ++ toString citations.length
       ++ " legal sections indicates eligibility under the cited provisions. The relevant legal framework supports this determination with a conflict score of "
       ++ toString conflictScore ++ "/10, indicating "
       ++ (if conflictScore < 5 then "low" else "moderate")
       ++ " internal complexity. Refer to sections "
       ++ String.intercalate ", " ((citations.take 2).map (fun c => c.section_id))
       ++ " for the legal basis.",
     biasFlag⟩
  else
    ⟨Outcome.RequiresMoreData,
     "The retrieved legal citations do not provide sufficient clarity for a definitive determination. The conflict score of "
       ++ toString conflictScore
       ++ "/10 suggests complex or ambiguous provisions. Additional context or expert legal interpretation is required.",
     biasFlag⟩

/-- Interpretation entry point `executeNode2`: misuse short-circuit first,
then the empty-citations branch, then the step-by-step analysis. -/
def executeNode2 (node1Output : Node1Output) (userQuery : String) : Node2Output :=
  let misuseCheck := detectMisuseIntent userQuery
  if misuseCheck.isMisuse then
    ⟨Outcome.RequiresMoreData,
     misuseCheck.reason ++ " " ++ HIROSHIMA_SAFETY
       ++ ". Please reformulate your query to request legitimate legal interpretation.",
     BiasFlagV.NO⟩
  else if node1Output.TopCitations.isEmpty then
    ⟨Outcome.RequiresMoreData,
     "No relevant legal citations were found in the knowledge base. " ++ HIROSHIMA_TRANSPARENCY
       ++ " - additional information or clarification of the query is required to provide a determination.",
     BiasFlagV.NO⟩
  else performStepByStepAnalysis node1Output.TopCitations node1Output.ConflictScore userQuery

/-! ## Node 3: formatting and traceability -/

/-- Traceability validation (`validateTraceability`, FR.3.1.3): actionable
outcomes need a non-empty citation list whose entries all carry a non-empty
section id and citation text; `RequiresMoreData` is always compliant. -/
def validateTraceability (citations : List Citation) (outcome : Outcome) : Bool :=
  match outcome with
  | Outcome.Eligible | Outcome.NotEligible =>
    decide (0 < citations.length)
      && citations.all (fun c =>
           decide (0 < c.section_id.length) && decide (0 < c.citation_text.length))
  | Outcome.RequiresMoreData => true

/-- The `section_id`-prefix-to-jurisdiction table of `extractJurisdictions`. -/
def sectionIdJurisdiction (sectionId : String) : Option String :=
  if startsWithStr sectionId "CA-" then some "Canada"
  else if startsWithStr sectionId "FR-" then some "France"
  else if startsWithStr sectionId "DE-" then some "Germany"
  else if startsWithStr sectionId "IT-" then some "Italy"
  else if startsWithStr sectionId "JP-" then some "Japan"
  else if startsWithStr sectionId "UK-" then some "United Kingdom"
  else if startsWithStr sectionId "US-" then some "United States"
  else if startsWithStr sectionId "EU-" then some "European Union"
  else none

/-- Unique jurisdictions referenced by the citations' section-id prefixes,
in insertion order (`extractJurisdictions`). -/
def extractJurisdictions (citations : List Citation) : List String :=
  citations.foldl
    (fun acc c =>
      match sectionIdJurisdiction c.section_id with
      | some j => insertUnique acc j
      | none => acc) []

/-- Compliance-notes section (`formatComplianceNote`): high-conflict, bias
and traceability warnings in that order, or the empty string. -/
def formatComplianceNote (conflictScore : Nat) (biasFlag : BiasFlagV)
    (traceabilityCompliant : Bool) : String :=
  let notes : List String :=
    (if 7 ≤ conflictScore then
      ["**HIGH CONFLICT SCORE**: Cross-jurisdictional review recommended."] else [])
    ++ (if biasFlag = BiasFlagV.YES then
      ["**BIAS FLAG**: Protected characteristic detected - manual review required per G7 Fairness Principle."] else [])
    ++ (if !traceabilityCompliant then
      ["**TRACEABILITY WARNING**: Insufficient legal basis per FR.3.1.3 - determination requires verification."] else [])
  if notes.isEmpty then ""
  else "\n\n**G7 COMPLIANCE NOTES**\n\n" ++ String.intercalate "\n\n" notes

/-- Conclusion heading (`formatConclusion`; the source's `default` arm,
unreachable for the three-valued outcome type, is not represented). -/
def formatConclusion (outcome : Outcome) : String :=
  match outcome with
  | Outcome.Eligible => "**DETERMINATION: ELIGIBLE**"
  | Outcome.NotEligible => "**DETERMINATION: NOT ELIGIBLE**"
  | Outcome.RequiresMoreData => "**DETERMINATION: ADDITIONAL REVIEW REQUIRED**"

/-- Interpretation paragraph (`formatInterpretation`): outcome-specific
empathy preamble followed by the rationale. -/
def formatInterpretation (rationale : String) (outcome : Outcome) : String :=
  (match outcome with
   | Outcome.Eligible =>
     "Based on the applicable legal framework, the determination supports eligibility. "
   | Outcome.NotEligible =>
     "After careful review of the relevant regulations, the current circumstances do not meet the eligibility criteria. "
   | Outcome.RequiresMoreData =>
     "The legal framework applicable to this query contains complex provisions requiring additional assessment. ")
  ++ rationale

/-- Read the first `n` elements of a string's characters, the model of
`substring(0, n)` for the truncation in `formatLegalBasis`. -/
def strTake (s : String) (n : Nat) : String := ⟨s.data.take n⟩

/-- Legal-basis section (`formatLegalBasis`): a fixed message when there are
no citations, else a numbered list with 200-character truncation. -/
def formatLegalBasis (citations : List Citation) : String :=
  if citations.isEmpty then
    "**LEGAL BASIS**\n\nNo specific legal citations were identified for this query."
  else
    let citationList := String.intercalate "\n\n" (citations.enum.map (fun ic =>
      toString (ic.1 + 1) ++ ". **" ++ ic.2.section_id ++ "** - " ++ ic.2.title
        ++ "\n   \"" ++ strTake ic.2.citation_text 200
        ++ (if 200 < ic.2.citation_text.length then "..." else "") ++ "\""))
    "**LEGAL BASIS**\n\nThe following legal provisions form the basis for this determination:\n\n"
      ++ citationList

/-- Formatting entry point `executeNode3`. -/
def executeNode3 (node1Output : Node1Output) (node2Output : Node2Output) :
    FormattedOutput :=
  let traceabilityCompliant :=
    validateTraceability node1Output.TopCitations node2Output.FinalOutcome
  let conclusion := formatConclusion node2Output.FinalOutcome
  let interpretation := formatInterpretation node2Output.RationaleSummary node2Output.FinalOutcome
  let legalBasis := formatLegalBasis node1Output.TopCitations
  let complianceNote := formatComplianceNote node1Output.ConflictScore node2Output.BiasFlag
    traceabilityCompliant
  { displayText := conclusion ++ "\n\n" ++ interpretation ++ "\n\n" ++ legalBasis ++ complianceNote,
    outcome := node2Output.FinalOutcome,
    citations := node1Output.TopCitations,
    traceabilityCompliant := traceabilityCompliant,
    jurisdictionsReferenced := extractJurisdictions node1Output.TopCitations }

/-! ## Node 1, similarity variant, and the orchestrated pipeline

The orchestrator `processQuery` imports the similarity/boosted
`executeNode1(userQuery, primaryJurisdiction)`. JavaScript numbers carry
exact decimal literals here as rationals; all comparisons the concrete
proofs rely on are robust to that reading (they compare sums of the same
decimal terms). -/

/-- Mock similarity scorer `calculateMockSimilarity`: base 0.5 without
meaningful query terms; otherwise a term-match ratio mapped to [0.3, 0.9]
plus small category and recency boosts, capped at 1.0. -/
def calculateMockSimilarity (query : String) (doc : LegalDocument) (now : Int) : ℚ :=
  let terms := queryTerms (strLower query)
  let searchableText := strLower (doc.title ++ " " ++ doc.citation_text ++ " " ++ doc.category)
  if terms.isEmpty then 0.5
  else
    let matchCount := terms.countP (fun term => containsStr searchableText term)
    let termScore : ℚ := 0.3 + ((matchCount : ℚ) / (terms.length : ℚ)) * 0.6
    let categoryBoost : ℚ :=
      if doc.category = "Eligibility" then 0.05
      else if doc.category = "Exceptions" then 0.03
      else if doc.category = "Definitions" then 0.02
      else 0
    let recencyBoost : ℚ := if recencyBonusApplies doc now then 0.02 else 0
    min 1.0 (termScore + categoryBoost + recencyBoost)

/-- Similarity/boosted `executeNode1`: similarity scaled to 0-100, 1.5×
boost for the primary jurisdiction, stable descending re-sort, top five
kept with their jurisdiction/category metadata attached. -/
def executeNode1VSS (userQuery primaryJurisdiction : String)
    (documents : List LegalDocument) (now : Int) : Node1Output :=
  if documents.isEmpty then ⟨[], 0⟩
  else
    let filteredAndBoosted := documents.map (fun doc =>
      let score := calculateMockSimilarity userQuery doc now * 100
      (doc, if doc.jurisdiction = primaryJurisdiction then score * 1.5 else score))
    let sorted := sortByB (fun a b => decide (b.2 < a.2)) filteredAndBoosted
    let topCitations := (sorted.take 5).map (fun p =>
      { id := p.1.id, citation_text := p.1.citation_text,
        section_id := p.1.section_id, title := p.1.title,
        jurisdiction := some p.1.jurisdiction, category := some p.1.category : Citation })
    ⟨topCitations, calculateConflictScoreMeta topCitations documents⟩

/-- The `FormattedOutput` portion of the orchestrator `processQuery` on an
already-retrieved snapshot: node 1 (similarity variant), node 2, node 3 in
sequence. Persistence, audit logging and the timing/id fields of
`QueryResult` lie outside `FormattedOutput` and are not modelled. -/
def processQueryPure (userQuery primaryJurisdiction : String)
    (documents : List LegalDocument) (now : Int) : FormattedOutput :=
  let node1Output := executeNode1VSS userQuery primaryJurisdiction documents now
  let node2Output := executeNode2 node1Output userQuery
  executeNode3 node1Output node2Output

/-! ## Concrete fixtures used by the closed theorems -/

/-- A German Eligibility provision (also projected as `citDE`). -/
def docDE : LegalDocument :=
  { id := "d1", document_type := "Legal Act", title := "German Act",
    section_id := "DE-1", citation_text := "Residents hold data rights",
    category := "Eligibility", jurisdiction := "Germany", effective_date := none }

/-- A United States Eligibility provision (also projected as `citUS`). -/
def docUS : LegalDocument :=
  { id := "d2", document_type := "Legal Act", title := "US Act",
    section_id := "US-1", citation_text := "Consumers hold data rights",
    category := "Eligibility", jurisdiction := "United States", effective_date := none }

def citDE : Citation :=
  { id := "d1", citation_text := "Residents hold data rights", section_id := "DE-1",
    title := "German Act", jurisdiction := some "Germany", category := some "Eligibility" }

def citUS : Citation :=
  { id := "d2", citation_text := "Consumers hold data rights", section_id := "US-1",
    title := "US Act", jurisdiction := some "United States", category := some "Eligibility" }

/-- A single Canadian provision used by the keyword-retrieval witnesses. -/
def docSample : LegalDocument :=
  { id := "doc-ca-1", document_type := "Policy", title := "Benefit Policy",
    section_id := "CA-7", citation_text := "Applicants qualify for the housing benefit",
    category := "Eligibility", jurisdiction := "Canada", effective_date := none }

/-- Per-citation eligibility indicator count as the claim describes it. -/
def eligibilityCountOf (citations : List Citation) : Nat :=
  (citations.map (fun c => strLower c.citation_text)).countP
    (fun text => containsStr text "eligible" || containsStr text "entitled"
      || containsStr text "qualifies")

/-- Per-citation ineligibility indicator count as the claim describes it. -/
def ineligibilityCountOf (citations : List Citation) : Nat :=
  (citations.map (fun c => strLower c.citation_text)).countP
    (fun text => containsStr text "not eligible" || containsStr text "ineligible"
      || containsStr text "excluded" || containsStr text "prohibited"
      || containsStr text "disqualified")

/-- Uncertainty indicator count as the claim describes it: per-citation
count, +2 on an exception marker, +3 when the conflict score is at least 7. -/
def uncertaintyCountOf (citations : List Citation) (conflictScore : Nat) : Nat :=
  (citations.map (fun c => strLower c.citation_text)).countP
    (fun text => containsStr text "may" || containsStr text "discretion"
      || containsStr text "case-by-case" || containsStr text "subject to review"
      || containsStr text "upon approval")
  + (if citations.any (fun c =>
        let text := strLower c.citation_text
        containsStr text "except" || containsStr text "unless"
          || containsStr text "provided that") then 2 else 0)
  + (if 7 ≤ conflictScore then 3 else 0)

/-- Decision procedure stated by the claim: first matching branch of
(a) uncertainty > 2 or conflict ≥ 8, (b) ineligibility > eligibility,
(c) eligibility > 0, (d) default. -/
def claimedDecision (citations : List Citation) (conflictScore : Nat) : Outcome :=
  if 2 < uncertaintyCountOf citations conflictScore || 8 ≤ conflictScore then
    Outcome.RequiresMoreData
  else if eligibilityCountOf citations < ineligibilityCountOf citations then
    Outcome.NotEligible
  else if 0 < eligibilityCountOf citations then Outcome.Eligible
  else Outcome.RequiresMoreData

/-- A single eligibility citation used by the classifier witness. -/
def citElig : Citation :=
  { id := "e1", citation_text := "Tenants are eligible for the benefit",
    section_id := "CA-2", title := "Benefit Act" }

/-- Candidate without an effective date, used by the recency-boundary pair. -/
def docStale : LegalDocument :=
  { id := "a", document_type := "Legal Act", title := "Housing Act",
    section_id := "CA-10", citation_text := "The benefit is granted to tenants",
    category := "Eligibility", jurisdiction := "Canada", effective_date := none }

/-- Candidate effective at instant 0, used by the recency-boundary pair. -/
def docFresh : LegalDocument :=
  { id := "b", document_type := "Regulation", title := "Housing Regulation",
    section_id := "CA-11", citation_text := "The benefit applies to tenants",
    category := "Eligibility", jurisdiction := "Canada", effective_date := some 0 }

def citStale : Citation :=
  { id := "a", citation_text := "The benefit is granted to tenants",
    section_id := "CA-10", title := "Housing Act",
    jurisdiction := some "Canada", category := some "Eligibility" }

def citFresh : Citation :=
  { id := "b", citation_text := "The benefit applies to tenants",
    section_id := "CA-11", title := "Housing Regulation",
    jurisdiction := some "Canada", category := some "Eligibility" }

theorem prefixOfB_iff (p l : List Char) : prefixOfB p l = true ↔ p <+: l := by
  induction p generalizing l with
  | nil => simp only [prefixOfB, List.nil_prefix]
  | cons a p ih =>
    cases l with
    | nil =>
      simp only [prefixOfB, Bool.false_eq_true, false_iff]
      intro h
      exact absurd (List.eq_nil_of_prefix_nil h) (by simp)
    | cons b l =>
      simp only [prefixOfB, Bool.and_eq_true, beq_iff_eq, ih, List.cons_prefix_cons]

theorem infixOfB_iff (p l : List Char) : infixOfB p l = true ↔ p <:+: l := by
  induction l with
  | nil => simp [infixOfB, List.isEmpty_iff]
  | cons b t ih =>
    rw [infixOfB]
    simp only [Bool.or_eq_true, ih, prefixOfB_iff]
    constructor
    · rintro (h | h)
      · exact List.IsPrefix.isInfix h
      · exact h.trans ⟨[b], [], by simp⟩
    · intro h
      rcases h with ⟨s, u, hsu⟩
      cases s with
      | nil => left; exact ⟨u, by simpa using hsu⟩
      | cons x s =>
        right
        rw [List.infix_iff_prefix_suffix]
        refine ⟨p ++ u, ⟨u, rfl⟩, ⟨s, ?_⟩⟩
        have h2 : x :: (s ++ (p ++ u)) = b :: t := by simpa using hsu
        simpa using (List.tail_eq_of_cons_eq h2)

theorem containsStr_of_infix {s pat : String} (h : pat.data <:+: s.data) :
    containsStr s pat = true := (infixOfB_iff pat.data s.data).mpr h

theorem containsStr_append_left (s t pat : String) (h : containsStr s pat = true) :
    containsStr (s ++ t) pat = true := by
  refine containsStr_of_infix ?_
  rw [String.data_append]
  exact ((infixOfB_iff pat.data s.data).mp h).trans ⟨[], t.data, by simp⟩

theorem containsStr_append_right (s t pat : String) (h : containsStr t pat = true) :
    containsStr (s ++ t) pat = true := by
  refine containsStr_of_infix ?_
  rw [String.data_append]
  exact ((infixOfB_iff pat.data t.data).mp h).trans ⟨s.data, [], by simp⟩

theorem insertByB_length {α : Type} (r : α → α → Bool) (a : α) (l : List α) :
    (insertByB r a l).length = l.length + 1 := by
  induction l with
  | nil => rfl
  | cons b t ih =>
    rw [insertByB]
    by_cases h : r a b = true
    · simp [h]
    · simp [h, ih]

theorem sortByB_length {α : Type} (r : α → α → Bool) (l : List α) :
    (sortByB r l).length = l.length := by
  suffices h : ∀ acc : List α,
      (l.foldl (fun acc a => insertByB r a acc) acc).length = acc.length + l.length by
    simpa using h []
  induction l with
  | nil => intro acc; simp
  | cons a t ih =>
    intro acc
    rw [List.foldl_cons, ih (insertByB r a acc), insertByB_length]
    simp [List.length_cons]
    omega

theorem jsSet_mem {α : Type} [DecidableEq α] (l : List α) (a : α) :
    a ∈ jsSet l ↔ a ∈ l := by
  suffices h : ∀ acc : List α, a ∈ l.foldl insertUnique acc ↔ a ∈ acc ∨ a ∈ l by
    simpa [jsSet] using (h []).trans (by simp)
  induction l with
  | nil => intro acc; simp
  | cons b t ih =>
    intro acc
    simp only [List.foldl_cons, ih, insertUnique]
    by_cases hb : b ∈ acc
    · simp only [if_pos hb, List.mem_cons]
      constructor
      · rintro (h | h)
        · exact Or.inl h
        · exact Or.inr (Or.inr h)
      · rintro (h | h | h)
        · exact Or.inl h
        · exact Or.inl (h ▸ hb)
        · exact Or.inr h
    · simp only [if_neg hb, List.mem_append, List.mem_singleton, List.mem_cons]
      tauto

theorem jsSet_nodup {α : Type} [DecidableEq α] (l : List α) : (jsSet l).Nodup := by
  suffices h : ∀ acc : List α, acc.Nodup → (l.foldl insertUnique acc).Nodup by
    exact h [] List.nodup_nil
  induction l with
  | nil => intro acc h; simpa using h
  | cons b t ih =>
    intro acc hacc
    simp only [List.foldl_cons]
    refine ih _ ?_
    unfold insertUnique
    by_cases hb : b ∈ acc
    · simpa [hb] using hacc
    · simp [hb, List.nodup_append, hacc]

/-- A list containing two distinct elements has at least two elements. -/
theorem two_le_length_of_ne {α : Type} {l : List α} {x y : α}
    (hx : x ∈ l) (hy : y ∈ l) (hxy : x ≠ y) : 2 ≤ l.length := by
  match l with
  | [] => cases hx
  | [a] =>
    simp only [List.mem_singleton] at hx hy
    exact absurd (hx.trans hy.symm) hxy
  | a :: b :: t => simp only [List.length_cons]; omega

/-! ## Supporting lemmas -/

theorem containsStr_self (s : String) : containsStr s s = true :=
  containsStr_of_infix (List.infix_refl _)

theorem foldl_if_add {α : Type} (p : α → Bool) (k : Nat) (l : List α) (acc : Nat) :
    l.foldl (fun a x => if p x then a + k else a) acc = acc + k * l.countP p := by
  induction l generalizing acc with
  | nil => simp
  | cons b t ih =>
    simp only [List.foldl_cons, List.countP_cons]
    by_cases hb : p b = true
    · rw [if_pos hb, ih, hb]
      simp
      ring
    · rw [if_neg hb, ih]
      simp [hb]

theorem conflictTermHits_eq (texts : List String) :
    conflictTermHits texts
      = (texts.map (fun text =>
          CONFLICT_TERMS.countP (fun term => containsStr text term))).sum := by
  suffices h : ∀ acc, texts.foldl
      (fun acc text =>
        CONFLICT_TERMS.foldl (fun a term => if containsStr text term then a + 1 else a) acc) acc
      = acc + (texts.map (fun text =>
          CONFLICT_TERMS.countP (fun term => containsStr text term))).sum by
    simpa [conflictTermHits] using h 0
  induction texts with
  | nil => intro acc; simp
  | cons b t ih =>
    intro acc
    simp only [List.foldl_cons, List.map_cons, List.sum_cons]
    rw [foldl_if_add, ih]
    ring

theorem tallyIndicators_eq (texts : List String) :
    tallyIndicators texts =
      (texts.countP (fun text => containsStr text "eligible" || containsStr text "entitled"
          || containsStr text "qualifies"),
       texts.countP (fun text => containsStr text "not eligible" || containsStr text "ineligible"
          || containsStr text "excluded" || containsStr text "prohibited"
          || containsStr text "disqualified"),
       texts.countP (fun text => containsStr text "may" || containsStr text "discretion"
          || containsStr text "case-by-case" || containsStr text "subject to review"
          || containsStr text "upon approval")) := by
  suffices h : ∀ e i u, texts.foldl
      (fun t text =>
        let e := if containsStr text "eligible" || containsStr text "entitled"
                    || containsStr text "qualifies" then t.1 + 1 else t.1
        let i := if containsStr text "not eligible" || containsStr text "ineligible"
                    || containsStr text "excluded" || containsStr text "prohibited"
                    || containsStr text "disqualified" then t.2.1 + 1 else t.2.1
        let u := if containsStr text "may" || containsStr text "discretion"
                    || containsStr text "case-by-case" || containsStr text "subject to review"
                    || containsStr text "upon approval" then t.2.2 + 1 else t.2.2
        (e, i, u)) (e, i, u)
      = (e + texts.countP (fun text => containsStr text "eligible" || containsStr text "entitled"
            || containsStr text "qualifies"),
         i + texts.countP (fun text => containsStr text "not eligible"
            || containsStr text "ineligible" || containsStr text "excluded"
            || containsStr text "prohibited" || containsStr text "disqualified"),
         u + texts.countP (fun text => containsStr text "may" || containsStr text "discretion"
            || containsStr text "case-by-case" || containsStr text "subject to review"
            || containsStr text "upon approval")) by
    simpa [tallyIndicators] using h 0 0 0
  induction texts with
  | nil => intro e i u; simp
  | cons b t ih =>
    intro e i u
    simp only [List.foldl_cons]
    rw [ih]
    simp only [List.countP_cons, Prod.mk.injEq]
    refine ⟨?_, ?_, ?_⟩ <;> split <;> simp_all <;> omega

theorem findMisusePattern_none (ql : String) :
    ∀ l : List String, findMisusePattern ql l = none → ∀ p ∈ l, containsStr ql p = false := by
  intro l
  induction l with
  | nil => intro _ p hp; cases hp
  | cons b t ih =>
    intro h p hp
    rw [findMisusePattern] at h
    by_cases hb : containsStr ql b = true
    · rw [if_pos hb] at h; cases h
    · rw [if_neg hb] at h
      rcases List.mem_cons.mp hp with rfl | hmem
      · simpa using hb
      · exact ih h p hmem

theorem findMisusePattern_some (ql : String) :
    ∀ l : List String, ∀ p, findMisusePattern ql l = some p →
      p ∈ l ∧ containsStr ql p = true := by
  intro l
  induction l with
  | nil => intro p h; cases h
  | cons b t ih =>
    intro p h
    rw [findMisusePattern] at h
    by_cases hb : containsStr ql b = true
    · rw [if_pos hb] at h
      cases h
      exact ⟨List.mem_cons_self b t, hb⟩
    · rw [if_neg hb] at h
      rcases ih p h with ⟨hmem, hc⟩
      exact ⟨List.mem_cons_of_mem b hmem, hc⟩

theorem scanBiasTerms_yes (allTextLower queryLower : String) (hasLegalContext : Bool) :
    ∀ l : List String,
      (scanBiasTerms allTextLower hasLegalContext queryLower l = BiasFlagV.YES ↔
        (l.any (fun term => containsStr allTextLower term) = true
          ∧ hasLegalContext = false
          ∧ (isLegitimateQuestionB queryLower = false
              ∨ containsStr allTextLower "more likely" = true
              ∨ containsStr allTextLower "less likely" = true))) := by
  intro l
  induction l with
  | nil => simp [scanBiasTerms]
  | cons b t ih =>
    rw [scanBiasTerms]
    by_cases h1 : containsStr allTextLower b = true
    · rw [if_pos h1]
      by_cases h2 : hasLegalContext = false
      · have hnot : (!hasLegalContext) = true := by simp [h2]
        rw [if_pos hnot]
        by_cases h3 : (!isLegitimateQuestionB queryLower
            || containsStr allTextLower "more likely"
            || containsStr allTextLower "less likely") = true
        · rw [if_pos h3]
          simp only [Bool.or_eq_true, Bool.not_eq_true'] at h3
          simp [h1, h2]
          tauto
        · rw [if_neg h3, ih]
          simp only [Bool.or_eq_true, Bool.not_eq_true'] at h3
          push_neg at h3
          have hfalse : ¬(isLegitimateQuestionB queryLower = false
              ∨ containsStr allTextLower "more likely" = true
              ∨ containsStr allTextLower "less likely" = true) := by
            obtain ⟨⟨ha3, hb3⟩, hc3⟩ := h3
            rintro (hc | hc | hc)
            · exact ha3 hc
            · exact hb3 hc
            · exact hc3 hc
          refine iff_of_false ?_ ?_
          · rintro ⟨_, _, hc⟩; exact hfalse hc
          · rintro ⟨_, _, hc⟩; exact hfalse hc
      · have h2' : hasLegalContext = true := by
          cases hasLegalContext
          · exact absurd rfl h2
          · rfl
        have hnot : ¬((!hasLegalContext) = true) := by simp [h2']
        rw [if_neg hnot, ih]
        refine iff_of_false ?_ ?_
        · rintro ⟨_, hc, _⟩; exact absurd hc (by simp [h2'])
        · rintro ⟨_, hc, _⟩; exact absurd hc (by simp [h2'])
    · rw [if_neg h1, ih]
      simp [h1]

/-! ## Claim theorems -/

/-- C10: for the traceability validator, an actionable outcome (`Eligible`
or `Not Eligible`) together with an empty citation list is non-compliant,
even though "every citation is complete" holds vacuously of an empty list:
non-emptiness itself is required. -/
theorem traceability_empty_citations_noncompliant :
    validateTraceability [] Outcome.Eligible = false
      ∧ validateTraceability [] Outcome.NotEligible = false := by
  decide

/-- C5: on the formatter's output, for outcome `Eligible` or `Not Eligible`,
`traceabilityCompliant = true` implies every citation carries a non-empty
`section_id` and a non-empty `citation_text`; and for outcome
`Requires More Data`, `traceabilityCompliant` is unconditionally true. -/
theorem traceability_soundness (n1 : Node1Output) (n2 : Node2Output) :
    (((executeNode3 n1 n2).outcome = Outcome.Eligible
        ∨ (executeNode3 n1 n2).outcome = Outcome.NotEligible) →
      (executeNode3 n1 n2).traceabilityCompliant = true →
      ∀ c ∈ (executeNode3 n1 n2).citations,
        0 < c.section_id.length ∧ 0 < c.citation_text.length)
    ∧ ((executeNode3 n1 n2).outcome = Outcome.RequiresMoreData →
        (executeNode3 n1 n2).traceabilityCompliant = true) := by
  have hco : (executeNode3 n1 n2).outcome = n2.FinalOutcome := rfl
  have hcc : (executeNode3 n1 n2).citations = n1.TopCitations := rfl
  have hct : (executeNode3 n1 n2).traceabilityCompliant
      = validateTraceability n1.TopCitations n2.FinalOutcome := rfl
  constructor
  · intro hout hcompl c hc
    rw [hct] at hcompl
    rw [hcc] at hc
    rw [hco] at hout
    have hcomplete : n1.TopCitations.all (fun c =>
        decide (0 < c.section_id.length) && decide (0 < c.citation_text.length)) = true := by
      rcases hout with h | h <;>
        · rw [h] at hcompl
          simp only [validateTraceability, Bool.and_eq_true] at hcompl
          exact hcompl.2
    have := (List.all_eq_true.mp hcomplete) c hc
    simpa using this
  · intro hout
    rw [hct]
    have hh : n2.FinalOutcome = Outcome.RequiresMoreData := hco ▸ hout
    rw [hh]
    rfl

/-- C6: with a zero-document snapshot, retrieval yields no citations and
conflict score 0; interpretation of that result yields `Requires More Data`
with `biasFlag = NO` for every query; and the formatted display text
contains the fixed "No specific legal citations" message. -/
theorem empty_retrieval_pipeline (q : String) (now : Int) :
    executeNode1 q [] now = ⟨[], 0⟩
    ∧ (executeNode2 ⟨[], 0⟩ q).FinalOutcome = Outcome.RequiresMoreData
    ∧ (executeNode2 ⟨[], 0⟩ q).BiasFlag = BiasFlagV.NO
    ∧ containsStr (executeNode3 ⟨[], 0⟩ (executeNode2 ⟨[], 0⟩ q)).displayText
        "No specific legal citations" = true := by
  refine ⟨rfl, ?_, ?_, ?_⟩
  · unfold executeNode2
    by_cases hm : (detectMisuseIntent q).isMisuse = true
    · simp [hm]
    · simp [hm]
  · unfold executeNode2
    by_cases hm : (detectMisuseIntent q).isMisuse = true
    · simp [hm]
    · simp [hm]
  · have hshape : (executeNode3 ⟨[], 0⟩ (executeNode2 ⟨[], 0⟩ q)).displayText
        = formatConclusion (executeNode2 ⟨[], 0⟩ q).FinalOutcome ++ "\n\n"
          ++ formatInterpretation (executeNode2 ⟨[], 0⟩ q).RationaleSummary
              (executeNode2 ⟨[], 0⟩ q).FinalOutcome ++ "\n\n"
          ++ formatLegalBasis []
          ++ formatComplianceNote 0 (executeNode2 ⟨[], 0⟩ q).BiasFlag
              (validateTraceability [] (executeNode2 ⟨[], 0⟩ q).FinalOutcome) := rfl
    rw [hshape]
    apply containsStr_append_left
    apply containsStr_append_right
    decide

/-- C2: when the lower-cased query contains a misuse phrase, or contains one
of "safety"/"restriction"/"prohibited" together with "suggest" and ("step"
or "way"), interpretation yields `Requires More Data` with `biasFlag = NO`,
a rationale citing the matched phrase (when a phrase matched) and the
safety principle, and the result is independent of the retrieved documents
(bias detection and outcome classification never run). -/
theorem misuse_short_circuit (q : String) (n1 n1' : Node1Output)
    (h : (∃ p ∈ MISUSE_PATTERNS, containsStr (strLower q) p = true)
        ∨ ((containsStr (strLower q) "safety" = true
              ∨ containsStr (strLower q) "restriction" = true
              ∨ containsStr (strLower q) "prohibited" = true)
            ∧ containsStr (strLower q) "suggest" = true
            ∧ (containsStr (strLower q) "step" = true
                ∨ containsStr (strLower q) "way" = true))) :
    (executeNode2 n1 q).FinalOutcome = Outcome.RequiresMoreData
      ∧ (executeNode2 n1 q).BiasFlag = BiasFlagV.NO
      ∧ containsStr (executeNode2 n1 q).RationaleSummary HIROSHIMA_SAFETY = true
      ∧ (∀ p, findMisusePattern (strLower q) MISUSE_PATTERNS = some p →
          containsStr (executeNode2 n1 q).RationaleSummary p = true)
      ∧ executeNode2 n1 q = executeNode2 n1' q := by
  cases hfind : findMisusePattern (strLower q) MISUSE_PATTERNS with
  | some p0 =>
    have hd : detectMisuseIntent q =
        ⟨true, "Query contains potential misuse language (\"" ++ p0
          ++ "\"). Per G7 Safety Principle, interpretation for circumvention is not provided."⟩ := by
      simp only [detectMisuseIntent, hfind]
    have he : ∀ m : Node1Output, executeNode2 m q =
        ⟨Outcome.RequiresMoreData,
         ("Query contains potential misuse language (\"" ++ p0
            ++ "\"). Per G7 Safety Principle, interpretation for circumvention is not provided.")
           ++ " " ++ HIROSHIMA_SAFETY
           ++ ". Please reformulate your query to request legitimate legal interpretation.",
         BiasFlagV.NO⟩ := by
      intro m
      unfold executeNode2
      rw [hd]
      rfl
    rw [he n1, he n1']
    refine ⟨rfl, rfl, ?_, ?_, rfl⟩
    · apply containsStr_append_left
      apply containsStr_append_right
      exact containsStr_self _
    · intro p hp
      cases hp
      apply containsStr_append_left
      apply containsStr_append_left
      apply containsStr_append_left
      apply containsStr_append_left
      apply containsStr_append_right
      exact containsStr_self _
  | none =>
    have hcomp : (containsStr (strLower q) "safety" = true
          ∨ containsStr (strLower q) "restriction" = true
          ∨ containsStr (strLower q) "prohibited" = true)
        ∧ containsStr (strLower q) "suggest" = true
        ∧ (containsStr (strLower q) "step" = true
            ∨ containsStr (strLower q) "way" = true) := by
      rcases h with ⟨p, hp, hc⟩ | hcomp
      · exact absurd hc (by simp [findMisusePattern_none (strLower q) MISUSE_PATTERNS hfind p hp])
      · exact hcomp
    have h1 : (containsStr (strLower q) "safety" || containsStr (strLower q) "restriction"
        || containsStr (strLower q) "prohibited") = true := by
      rcases hcomp.1 with hc | hc | hc <;> simp [hc]
    have h2 : (containsStr (strLower q) "suggest"
        && (containsStr (strLower q) "step" || containsStr (strLower q) "way")) = true := by
      rcases hcomp.2.2 with hc | hc <;> simp [hcomp.2.1, hc]
    have hd : detectMisuseIntent q =
        ⟨true, "Query appears to seek guidance on circumventing safety restrictions. Per G7 Safety Principle, such interpretation is declined."⟩ := by
      simp only [detectMisuseIntent, hfind, h1, h2, Bool.and_self, if_true]
    have he : ∀ m : Node1Output, executeNode2 m q =
        ⟨Outcome.RequiresMoreData,
         "Query appears to seek guidance on circumventing safety restrictions. Per G7 Safety Principle, such interpretation is declined."
           ++ " " ++ HIROSHIMA_SAFETY
           ++ ". Please reformulate your query to request legitimate legal interpretation.",
         BiasFlagV.NO⟩ := by
      intro m
      unfold executeNode2
      rw [hd]
      rfl
    rw [he n1, he n1']
    refine ⟨rfl, rfl, ?_, ?_, rfl⟩
    · apply containsStr_append_left
      apply containsStr_append_right
      exact containsStr_self _
    · intro p hp
      cases hp

/-- C2 witness: the theorem applied to a concrete circumvention query. -/
theorem misuse_short_circuit_witness :
    (∃ p ∈ MISUSE_PATTERNS,
        containsStr (strLower "Can I circumvent the eligibility rules") p = true)
      ∧ (executeNode2 ⟨[], 0⟩ "Can I circumvent the eligibility rules").FinalOutcome
          = Outcome.RequiresMoreData
      ∧ (executeNode2 ⟨[], 0⟩ "Can I circumvent the eligibility rules").BiasFlag = BiasFlagV.NO
      ∧ containsStr
          (executeNode2 ⟨[], 0⟩ "Can I circumvent the eligibility rules").RationaleSummary
          HIROSHIMA_SAFETY = true
      ∧ executeNode2 ⟨[], 0⟩ "Can I circumvent the eligibility rules"
          = executeNode2 ⟨[citDE], 1⟩ "Can I circumvent the eligibility rules" := by
  have h := misuse_short_circuit "Can I circumvent the eligibility rules" ⟨[], 0⟩ ⟨[citDE], 1⟩
    (Or.inl ⟨"circumvent", by decide, by decide⟩)
  exact ⟨⟨"circumvent", by decide, by decide⟩, h.1, h.2.1, h.2.2.1, h.2.2.2.2⟩

/-- C4: the bias detector flags `YES` exactly when some protected term
occurs in the lower-cased combination of citation texts and query, no
legal-context phrase occurs anywhere in that combination, and either the
query is not a legitimate question or the combination carries
comparative-outcome phrasing; in particular a citation reading "without
regard to age, gender, race" yields `NO`. -/
theorem bias_detector_characterization :
    (∀ (citationTexts : List String) (userQuery : String),
        detectBias citationTexts userQuery = BiasFlagV.YES ↔
          (biasTerms.any (fun term =>
              containsStr (strLower (String.intercalate " " citationTexts ++ " " ++ userQuery))
                term) = true
            ∧ legalContextPhrases.any (fun phrase =>
                containsStr (strLower (String.intercalate " " citationTexts ++ " " ++ userQuery))
                  phrase) = false
            ∧ (isLegitimateQuestionB (strLower userQuery) = false
                ∨ containsStr (strLower (String.intercalate " " citationTexts ++ " " ++ userQuery))
                    "more likely" = true
                ∨ containsStr (strLower (String.intercalate " " citationTexts ++ " " ++ userQuery))
                    "less likely" = true)))
    ∧ detectBias ["Benefits are granted without regard to age, gender, race"]
        "Is an older person eligible for the benefit" = BiasFlagV.NO := by
  constructor
  · intro citationTexts userQuery
    simp only [detectBias]
    rw [scanBiasTerms_yes]
  · decide

/-- C3: for a non-empty citation list and a query that does not trip the
misuse detector, the interpretation outcome is exactly the claim's tallied
first-matching-branch decision. -/
theorem outcome_classifier_decision (citations : List Citation) (conflictScore : Nat)
    (q : String) (h1 : citations ≠ [])
    (h2 : (detectMisuseIntent q).isMisuse = false) :
    (executeNode2 ⟨citations, conflictScore⟩ q).FinalOutcome
      = claimedDecision citations conflictScore := by
  have hne : citations.isEmpty = false := by
    cases citations
    · exact absurd rfl h1
    · rfl
  have he : executeNode2 ⟨citations, conflictScore⟩ q
      = performStepByStepAnalysis citations conflictScore q := by
    simp [executeNode2, h2, hne]
  rw [he]
  simp only [performStepByStepAnalysis, claimedDecision, uncertaintyCountOf,
    eligibilityCountOf, ineligibilityCountOf]
  rw [tallyIndicators_eq]
  simp only [apply_ite Node2Output.FinalOutcome]

/-- C3 witness: the theorem at a single eligibility citation. -/
theorem outcome_classifier_decision_witness :
    (executeNode2 ⟨[citElig], 1⟩ "is a tenant covered").FinalOutcome
      = claimedDecision [citElig] 1 :=
  outcome_classifier_decision [citElig] 1 "is a tenant covered" (by decide) (by decide)

theorem clampScore_bounds (n : Nat) : 1 ≤ clampScore n ∧ clampScore n ≤ 10 := by
  unfold clampScore
  omega

theorem calculateConflictScoreBasic_bounds (topCitations : List Citation)
    (allDocuments : List LegalDocument) :
    1 ≤ calculateConflictScoreBasic topCitations allDocuments
      ∧ calculateConflictScoreBasic topCitations allDocuments ≤ 10 := by
  unfold calculateConflictScoreBasic
  split
  · omega
  · exact clampScore_bounds _

/-- C9: the retrieval output's conflict score never exceeds 10 (and, being a
natural number, is never negative), is 0 exactly when `TopCitations` is
empty, and is fixed at 1 whenever at least one but fewer than two citations
were produced. -/
theorem conflict_score_bounds (q : String) (docs : List LegalDocument) (now : Int) :
    (executeNode1 q docs now).ConflictScore ≤ 10
    ∧ ((executeNode1 q docs now).ConflictScore = 0 ↔ (executeNode1 q docs now).TopCitations = [])
    ∧ ((executeNode1 q docs now).TopCitations ≠ [] →
        (executeNode1 q docs now).TopCitations.length < 2 →
        (executeNode1 q docs now).ConflictScore = 1) := by
  by_cases hd : docs.isEmpty = true
  · have hdocs : docs = [] := List.isEmpty_iff.mp hd
    subst hdocs
    have hval : executeNode1 q [] now = ⟨[], 0⟩ := rfl
    rw [hval]
    exact ⟨by decide, by simp, fun hne _ => absurd rfl hne⟩
  · have hlen : (executeNode1 q docs now).TopCitations.length = min 5 docs.length := by
      unfold executeNode1
      rw [if_neg hd]
      simp [List.length_take, sortByB_length, List.length_map]
    have hsc : (executeNode1 q docs now).ConflictScore
        = calculateConflictScoreBasic (executeNode1 q docs now).TopCitations docs := by
      unfold executeNode1
      rw [if_neg hd]
    have hb := calculateConflictScoreBasic_bounds (executeNode1 q docs now).TopCitations docs
    have hdn : docs.length ≠ 0 := by
      cases docs
      · exact absurd rfl hd
      · simp
    have hlen1 : 1 ≤ (executeNode1 q docs now).TopCitations.length := by
      rw [hlen]; omega
    refine ⟨hsc ▸ hb.2, ?_, ?_⟩
    · refine iff_of_false ?_ ?_
      · rw [hsc]; omega
      · intro hnil
        rw [hnil] at hlen1
        simp at hlen1
    · intro _ hlt
      rw [hsc]
      unfold calculateConflictScoreBasic
      rw [if_pos hlt]

theorem foldl_ite_add {α : Type} (p : α → Prop) [DecidablePred p] (k : Nat)
    (l : List α) (acc : Nat) :
    l.foldl (fun a x => if p x then a + k else a) acc
      = acc + k * l.countP (fun x => decide (p x)) := by
  induction l generalizing acc with
  | nil => simp
  | cons b t ih =>
    simp only [List.foldl_cons, List.countP_cons]
    by_cases hb : p b
    · rw [if_pos hb, ih]
      simp [hb]
      ring
    · rw [if_neg hb, ih]
      simp [hb]

theorem foldl_plus5 (pairs : List (String × String)) (acc : Nat) :
    (jsSet (pairs.map Prod.fst)).foldl
      (fun a cat =>
        if 2 ≤ (jsSet ((pairs.filter (fun p => decide (p.1 = cat))).map Prod.snd)).length
        then a + 5 else a) acc
    = acc + 5 * (jsSet (pairs.map Prod.fst)).countP
        (fun cat =>
          decide (2 ≤ (jsSet ((pairs.filter (fun p => decide (p.1 = cat))).map Prod.snd)).length)) :=
  foldl_ite_add
    (fun cat => 2 ≤ (jsSet ((pairs.filter (fun p => decide (p.1 = cat))).map Prod.snd)).length)
    5 (jsSet (pairs.map Prod.fst)) acc

theorem stringencySpread_two_le (l : List String) (h : 3 ≤ stringencySpread l) :
    2 ≤ l.length := by
  match l with
  | [] => exact absurd h (by decide)
  | [a] =>
    exfalso
    have hz : stringencySpread [a] = 0 := by
      simp [stringencySpread, listMaxN, listMinN]
    omega
  | a :: b :: t => simp only [List.length_cons]; omega

theorem eu_noneu_two_le (l : List String)
    (h1 : l.any (fun j => EU_ALIGNED.contains j) = true)
    (h2 : l.any (fun j => NON_EU_G7.contains j) = true) : 2 ≤ l.length := by
  rw [List.any_eq_true] at h1 h2
  obtain ⟨x, hx, hxe⟩ := h1
  obtain ⟨y, hy, hye⟩ := h2
  refine two_le_length_of_ne hx hy ?_
  intro hxy
  subst hxy
  have hx1 : x ∈ EU_ALIGNED := by simpa using hxe
  have hx2 : x ∈ NON_EU_G7 := by simpa using hye
  simp only [EU_ALIGNED, List.mem_cons, List.not_mem_nil, or_false] at hx1
  rcases hx1 with rfl | rfl | rfl | rfl <;> simp [NON_EU_G7] at hx2

/-- C1 (amended): each of the two conflict analyzers computes
`clamp(1, 10, floor(sum / 2) + 1)` over its own signal set for two or more
citations — the metadata-aware analyzer over the category-clash, term-pair,
per-category cross-jurisdiction and multi-jurisdiction signals only, and
the G7-enhanced analyzer over the category-clash, definitional-divergence,
term-pair, multi-jurisdiction, G7-membership, stringency-spread and
EU/non-EU signals only. No analyzer accumulates the combined signal list
the claim states. -/
theorem conflict_analyzer_two_tier_split (topCitations : List Citation)
    (allDocuments : List LegalDocument) (h : 2 ≤ topCitations.length) :
    calculateConflictScoreMeta topCitations allDocuments
        = clampScore (metaIndicatorSum topCitations allDocuments)
      ∧ calculateConflictScoreG7 topCitations allDocuments
        = clampScore (g7IndicatorSum topCitations allDocuments) := by
  constructor
  · simp only [calculateConflictScoreMeta, metaIndicatorSum]
    rw [if_neg (by omega)]
    rw [conflictTermHits_eq, foldl_plus5]
  · simp only [calculateConflictScoreG7, g7IndicatorSum]
    rw [if_neg (by omega)]
    rw [conflictTermHits_eq]
    congr 1
    have hfil : ((jsSet (topCitations.filterMap
          (fun c => (allDocuments.find? (fun d => d.id = c.id)).map
            (fun d => d.jurisdiction)))).filter (fun j => G7_JURISDICTIONS.contains j)).length
        ≤ (jsSet (topCitations.filterMap
          (fun c => (allDocuments.find? (fun d => d.id = c.id)).map
            (fun d => d.jurisdiction)))).length :=
      List.length_filter_le _ _
    by_cases h1 : 1 < (jsSet (topCitations.filterMap
        (fun c => (allDocuments.find? (fun d => d.id = c.id)).map
          (fun d => d.jurisdiction)))).length
    · simp only [if_pos h1]
      by_cases h2 : 1 < ((jsSet (topCitations.filterMap
          (fun c => (allDocuments.find? (fun d => d.id = c.id)).map
            (fun d => d.jurisdiction)))).filter (fun j => G7_JURISDICTIONS.contains j)).length
      · simp only [if_pos h2]
        by_cases h3 : 3 ≤ stringencySpread ((jsSet (topCitations.filterMap
            (fun c => (allDocuments.find? (fun d => d.id = c.id)).map
              (fun d => d.jurisdiction)))).filter (fun j => G7_JURISDICTIONS.contains j))
        · simp only [if_pos h3]
          by_cases h4 : (((jsSet (topCitations.filterMap
                (fun c => (allDocuments.find? (fun d => d.id = c.id)).map
                  (fun d => d.jurisdiction)))).filter (fun j => G7_JURISDICTIONS.contains j)).any
                  (fun j => EU_ALIGNED.contains j)
              && ((jsSet (topCitations.filterMap
                (fun c => (allDocuments.find? (fun d => d.id = c.id)).map
                  (fun d => d.jurisdiction)))).filter (fun j => G7_JURISDICTIONS.contains j)).any
                  (fun j => NON_EU_G7.contains j)) = true
          · simp only [if_pos h4]
          · simp only [if_neg h4]
        · simp only [if_neg h3]
          by_cases h4 : (((jsSet (topCitations.filterMap
                (fun c => (allDocuments.find? (fun d => d.id = c.id)).map
                  (fun d => d.jurisdiction)))).filter (fun j => G7_JURISDICTIONS.contains j)).any
                  (fun j => EU_ALIGNED.contains j)
              && ((jsSet (topCitations.filterMap
                (fun c => (allDocuments.find? (fun d => d.id = c.id)).map
                  (fun d => d.jurisdiction)))).filter (fun j => G7_JURISDICTIONS.contains j)).any
                  (fun j => NON_EU_G7.contains j)) = true
          · simp only [if_pos h4]
          · simp only [if_neg h4]
      · have h3 : ¬ 3 ≤ stringencySpread ((jsSet (topCitations.filterMap
            (fun c => (allDocuments.find? (fun d => d.id = c.id)).map
              (fun d => d.jurisdiction)))).filter (fun j => G7_JURISDICTIONS.contains j)) := by
          intro hc
          exact h2 (by have := stringencySpread_two_le _ hc; omega)
        have h4 : ¬ (((jsSet (topCitations.filterMap
              (fun c => (allDocuments.find? (fun d => d.id = c.id)).map
                (fun d => d.jurisdiction)))).filter (fun j => G7_JURISDICTIONS.contains j)).any
                (fun j => EU_ALIGNED.contains j)
            && ((jsSet (topCitations.filterMap
              (fun c => (allDocuments.find? (fun d => d.id = c.id)).map
                (fun d => d.jurisdiction)))).filter (fun j => G7_JURISDICTIONS.contains j)).any
                (fun j => NON_EU_G7.contains j)) = true := by
          intro hc
          simp only [Bool.and_eq_true] at hc
          exact h2 (by have := eu_noneu_two_le _ hc.1 hc.2; omega)
        simp only [if_neg h2, if_neg h3, if_neg h4]
    · have h2 : ¬ 1 < ((jsSet (topCitations.filterMap
          (fun c => (allDocuments.find? (fun d => d.id = c.id)).map
            (fun d => d.jurisdiction)))).filter (fun j => G7_JURISDICTIONS.contains j)).length := by
        omega
      have h3 : ¬ 3 ≤ stringencySpread ((jsSet (topCitations.filterMap
          (fun c => (allDocuments.find? (fun d => d.id = c.id)).map
            (fun d => d.jurisdiction)))).filter (fun j => G7_JURISDICTIONS.contains j)) := by
        intro hc
        exact h2 (by have := stringencySpread_two_le _ hc; omega)
      have h4 : ¬ (((jsSet (topCitations.filterMap
            (fun c => (allDocuments.find? (fun d => d.id = c.id)).map
              (fun d => d.jurisdiction)))).filter (fun j => G7_JURISDICTIONS.contains j)).any
              (fun j => EU_ALIGNED.contains j)
          && ((jsSet (topCitations.filterMap
            (fun c => (allDocuments.find? (fun d => d.id = c.id)).map
              (fun d => d.jurisdiction)))).filter (fun j => G7_JURISDICTIONS.contains j)).any
              (fun j => NON_EU_G7.contains j)) = true := by
        intro hc
        simp only [Bool.and_eq_true] at hc
        exact h2 (by have := eu_noneu_two_le _ hc.1 hc.2; omega)
      simp only [if_neg h1, if_neg h2, if_neg h3, if_neg h4]
      ring

/-- C1 counterexample: two same-category citations from Germany and the
United States. The claim's combined formula yields an indicator sum of 12
and a score of 7, while both analyzers actually present in the code yield
an indicator sum of 7 and a score of 4. -/
theorem conflict_analyzer_combined_formula_cex :
    claimedConflictScore [citDE, citUS] [docDE, docUS] = 7
      ∧ calculateConflictScoreMeta [citDE, citUS] [docDE, docUS] = 4
      ∧ calculateConflictScoreG7 [citDE, citUS] [docDE, docUS] = 4 := by
  decide

/-- C1 witness: the amended theorem at the Germany / United States pair. -/
theorem conflict_analyzer_two_tier_split_witness :
    calculateConflictScoreMeta [citDE, citUS] [docDE, docUS]
        = clampScore (metaIndicatorSum [citDE, citUS] [docDE, docUS])
      ∧ calculateConflictScoreG7 [citDE, citUS] [docDE, docUS]
        = clampScore (g7IndicatorSum [citDE, citUS] [docDE, docUS]) :=
  conflict_analyzer_two_tier_split [citDE, citUS] [docDE, docUS] (by decide)

/-- C7: the keyword relevance scorer is not total. The query term "(((("
(length 4, so it survives the term filter) is handed to `new RegExp` as a
pattern and its compilation throws, aborting the invocation. -/
theorem relevance_regex_error :
    calculateRelevanceScoreE (strLower "does (((( housing benefit apply") docSample 0
      = Except.error "Invalid regular expression: ((((" := by
  rfl

theorem queryTerms_benefit_housing :
    queryTerms (strLower "benefit housing") = ["benefit", "housing"] := by decide

theorem mockSimilarity_docStale (now : Int) :
    calculateMockSimilarity "benefit housing" docStale now = 0.95 := by
  have hrec : recencyBonusApplies docStale now = false := rfl
  have hcount : List.countP
      (fun term => containsStr
        (strLower (docStale.title ++ " " ++ docStale.citation_text ++ " " ++ docStale.category))
        term) ["benefit", "housing"] = 2 := by decide
  simp only [calculateMockSimilarity, queryTerms_benefit_housing, hrec, hcount]
  norm_num [docStale, min_def]

theorem mockSimilarity_docFresh_recent :
    calculateMockSimilarity "benefit housing" docFresh 0 = 0.97 := by
  have hrec : recencyBonusApplies docFresh 0 = true := by decide
  have hcount : List.countP
      (fun term => containsStr
        (strLower (docFresh.title ++ " " ++ docFresh.citation_text ++ " " ++ docFresh.category))
        term) ["benefit", "housing"] = 2 := by decide
  simp only [calculateMockSimilarity, queryTerms_benefit_housing, hrec, hcount]
  norm_num [docFresh, min_def]

theorem mockSimilarity_docFresh_stale :
    calculateMockSimilarity "benefit housing" docFresh 31536000000 = 0.95 := by
  have hrec : recencyBonusApplies docFresh 31536000000 = false := by decide
  have hcount : List.countP
      (fun term => containsStr
        (strLower (docFresh.title ++ " " ++ docFresh.citation_text ++ " " ++ docFresh.category))
        term) ["benefit", "housing"] = 2 := by decide
  simp only [calculateMockSimilarity, queryTerms_benefit_housing, hrec, hcount]
  norm_num [docFresh, min_def]

theorem node1VSS_at_zero :
    (executeNode1VSS "benefit housing" "Canada" [docStale, docFresh] 0).TopCitations
      = [citFresh, citStale] := by
  simp only [executeNode1VSS]
  rw [if_neg (by decide)]
  simp only [List.map_cons, List.map_nil, mockSimilarity_docStale, mockSimilarity_docFresh_recent]
  norm_num [docStale, docFresh, sortByB, insertByB, List.take, citStale, citFresh]

theorem node1VSS_at_boundary :
    (executeNode1VSS "benefit housing" "Canada" [docStale, docFresh] 31536000000).TopCitations
      = [citStale, citFresh] := by
  simp only [executeNode1VSS]
  rw [if_neg (by decide)]
  simp only [List.map_cons, List.map_nil, mockSimilarity_docStale, mockSimilarity_docFresh_stale]
  norm_num [docStale, docFresh, sortByB, insertByB, List.take, citStale, citFresh]

/-- C8 counterexample: two invocations with identical query, identical
primary jurisdiction and an identical snapshot, made 365 days apart, return
different `FormattedOutput`: the recency bonus of the document effective at
instant 0 lapses, so the citation order flips. -/
theorem pipeline_recency_boundary_cex :
    processQueryPure "benefit housing" "Canada" [docStale, docFresh] 0
      ≠ processQueryPure "benefit housing" "Canada" [docStale, docFresh] 31536000000 := by
  intro heq
  have hc : (executeNode1VSS "benefit housing" "Canada" [docStale, docFresh] 0).TopCitations
      = (executeNode1VSS "benefit housing" "Canada" [docStale, docFresh]
          31536000000).TopCitations :=
    congrArg FormattedOutput.citations heq
  rw [node1VSS_at_zero, node1VSS_at_boundary] at hc
  exact absurd hc (by decide)

/-- C8 (amended): given identical query, identical primary jurisdiction, an
identical snapshot, and evaluation instants at which every document has the
same recency status (effective within 365 days), the two invocations return
bit-identical `FormattedOutput`; evaluation time influences the output only
through that recency status. -/
theorem pipeline_determinism_modulo_recency (q pj : String) (docs : List LegalDocument)
    (t1 t2 : Int) (h : ∀ d ∈ docs, recencyBonusApplies d t1 = recencyBonusApplies d t2) :
    processQueryPure q pj docs t1 = processQueryPure q pj docs t2 := by
  have hsim : ∀ d ∈ docs, calculateMockSimilarity q d t1 = calculateMockSimilarity q d t2 := by
    intro d hd
    simp only [calculateMockSimilarity, h d hd]
  have hmap : docs.map (fun doc => (doc,
        if doc.jurisdiction = pj then calculateMockSimilarity q doc t1 * 100 * 1.5
        else calculateMockSimilarity q doc t1 * 100))
      = docs.map (fun doc => (doc,
        if doc.jurisdiction = pj then calculateMockSimilarity q doc t2 * 100 * 1.5
        else calculateMockSimilarity q doc t2 * 100)) := by
    apply List.map_congr_left
    intro d hd
    rw [hsim d hd]
  have h1 : executeNode1VSS q pj docs t1 = executeNode1VSS q pj docs t2 := by
    simp only [executeNode1VSS]
    rw [hmap]
  simp only [processQueryPure, h1]

/-- C8 witness: the amended theorem one day apart, both documents keeping
their recency status. -/
theorem pipeline_determinism_modulo_recency_witness :
    processQueryPure "benefit housing" "Canada" [docStale, docFresh] 0
      = processQueryPure "benefit housing" "Canada" [docStale, docFresh] 86400000 :=
  pipeline_determinism_modulo_recency "benefit housing" "Canada" [docStale, docFresh]
    0 86400000 (by decide)
